import Mathlib

/-!
Shallow embedding of the consensus-layer payload lifecycle driver
(`crates/consensus/clayer/src/engine_api.rs`, `ApiService`) and the block
production scheduler loop (`crates/consensus/clayer/src/task.rs`,
`ClTask::poll`) of the reth fork, together with proofs of the spec claims.

Block hashes (`B256`) are modelled as `Nat`; the 256-bit width plays no role
in any claim. The engine RPC client (`HttpJsonRpc`) is modelled as a record
of response functions (an oracle); the tokio runtime / oneshot-channel
plumbing in the Rust code always computes exactly one result and delivers it
to the blocking caller, so each driver operation is embedded as the direct
composition of the async body with the receiving match. A Rust `panic!` is
modelled as the `crash` outcome, distinct from every `Err` return.
-/

namespace RethCl

abbrev B256 := Nat

abbrev PayloadId := Nat

/-- Engine payload status tag, `PayloadStatusEnum` of the engine API types:
one of Valid / Invalid / Syncing / Accepted. -/
inductive PayloadStatusEnum where
  | valid
  | invalid
  | syncing
  | accepted
deriving DecidableEq, Repr

/-- `PayloadStatusEnum::is_valid`: true exactly on `Valid`. -/
def PayloadStatusEnum.is_valid : PayloadStatusEnum → Bool
  | .valid => true
  | _ => false

/-- Engine `PayloadStatus`: a status tag plus an optional latest valid hash
(the optional validation-error text is never read by the driver). -/
structure PayloadStatus where
  status : PayloadStatusEnum
  latest_valid_hash : Option B256
deriving DecidableEq, Repr

/-- `ForkchoiceState` sent to the engine: head / safe / finalized hashes. -/
structure ForkchoiceState where
  head_block_hash : B256
  safe_block_hash : B256
  finalized_block_hash : B256
deriving DecidableEq, Repr

/-- Engine response to `forkchoice_updated_v2`. -/
structure ForkchoiceUpdated where
  payload_status : PayloadStatus
  payload_id : Option PayloadId
deriving DecidableEq, Repr

/-- `ExecutionBlock` returned by `eth_getBlockByNumber`. -/
structure ExecutionBlock where
  block_hash : B256
  block_number : Nat
  parent_hash : B256
  total_difficulty : Nat
  timestamp : Nat
deriving DecidableEq, Repr

/-- One withdrawal entry of the payload attributes / payload body. -/
structure Withdrawal where
  index : Nat
  validator_index : Nat
  address : Nat
  amount : Nat
deriving DecidableEq, Repr

/-- The fields of `ExecutionPayloadV1` (`payload_inner`) that the driver
reads: candidate block hash and declared parent hash (the block number is
carried along for completeness). -/
structure ExecutionPayloadV1 where
  block_hash : B256
  parent_hash : B256
  block_number : Nat
deriving DecidableEq, Repr

/-- `ExecutionPayloadV2`: the V1 inner payload plus the withdrawal list. -/
structure ExecutionPayloadV2 where
  payload_inner : ExecutionPayloadV1
  withdrawals : List Withdrawal
deriving DecidableEq, Repr

/-- `ExecutionPayloadWrapperV2`: execution payload plus expected fee value. -/
structure ExecutionPayloadWrapperV2 where
  execution_payload : ExecutionPayloadV2
  block_value : Nat
deriving DecidableEq, Repr

/-- `ExecutionPayloadInputV2` sent to `new_payload_v2`. -/
structure ExecutionPayloadInputV2 where
  execution_payload : ExecutionPayloadV1
  withdrawals : Option (List Withdrawal)
deriving DecidableEq, Repr

/-- `PayloadAttributes` sent with a build-requesting forkchoice update. -/
structure PayloadAttributes where
  timestamp : Nat
  prev_randao : B256
  suggested_fee_recipient : Nat
  withdrawals : List Withdrawal
deriving DecidableEq, Repr

/-- The engine RPC client (`HttpJsonRpc`), modelled as an oracle of response
functions; `String` stands in for the transport error `ClRpcError`, whose
payload the driver only ever formats into an error message. -/
structure Engine where
  get_block_by_number : String → Except String (Option ExecutionBlock)
  forkchoice_updated_v2 :
    ForkchoiceState → Option PayloadAttributes → Except String ForkchoiceUpdated
  get_payload_v2 : PayloadId → Except String ExecutionPayloadWrapperV2
  new_payload_v2 : ExecutionPayloadInputV2 → Except String PayloadStatus

/-- Free function `forkchoice_updated` of `engine_api.rs`: plain forkchoice
update with head = safe = finalized = `last_block` and no attributes. -/
def forkchoice_updated (api : Engine) (last_block : B256) :
    Except String ForkchoiceUpdated :=
  api.forkchoice_updated_v2
    ⟨last_block, last_block, last_block⟩ none

/-- The build attributes of `forkchoice_updated_with_attributes`: the
constant JSON template with the timestamp overwritten by the wall clock
(`now`). -/
def buildAttributes (now : Nat) : PayloadAttributes :=
  { timestamp := now
    prev_randao := 0
    suggested_fee_recipient := 0
    withdrawals := [⟨0, 0, 0x10f0, 1⟩] }

/-- Free function `forkchoice_updated_with_attributes` of `engine_api.rs`:
forkchoice update with head = safe = finalized = `last_block` and the
constant build attributes stamped with the current wall clock. -/
def forkchoice_updated_with_attributes (api : Engine) (now : Nat)
    (last_block : B256) : Except String ForkchoiceUpdated :=
  api.forkchoice_updated_v2
    ⟨last_block, last_block, last_block⟩ (some (buildAttributes now))

/-- Free function `new_payload` of `engine_api.rs`: submits the wrapped
payload's inner payload and withdrawals to `new_payload_v2`. -/
def new_payload (api : Engine) (execution_payload : ExecutionPayloadWrapperV2) :
    Except String PayloadStatus :=
  api.new_payload_v2
    ⟨execution_payload.execution_payload.payload_inner,
      some execution_payload.execution_payload.withdrawals⟩

/-- `ApiServiceError` (without the `Ok(AsyncResultType)` transport variant,
which is only ever used to move a successful result across the internal
oneshot channel and never escapes to the caller). -/
inductive ApiServiceError where
  | MismatchAsyncResultType
  | ApiError (msg : String)
  | InvalidState (msg : String)
  | UnknownBlock (msg : String)
  | UnknownPeer (msg : String)
  | NoChainHead
  | BlockNotReady
  | Other (msg : String)
deriving DecidableEq, Repr

/-- Outcome of one driver operation: a Rust `Ok`, a Rust `Err`, or a Rust
`panic!` (process abort), which the Rust signature cannot express but the
code can produce. -/
inductive Outcome (α : Type) where
  | ok (a : α)
  | err (e : ApiServiceError)
  | crash (msg : String)
deriving DecidableEq, Repr

/-- Record of one RPC call issued by a driver operation, used to state which
engine endpoints an operation does (not) touch. -/
inductive EngineCall where
  | getBlockByNumber (tag : String)
  | forkchoiceUpdated (state : ForkchoiceState) (withAttributes : Bool)
  | getPayload (payload_id : PayloadId)
  | newPayload
deriving DecidableEq, Repr

/-- Association-list lookup standing in for `HashMap::get`. -/
def mapGet {α : Type} (k : B256) : List (B256 × α) → Option α
  | [] => none
  | (k', v) :: rest => if k = k' then some v else mapGet k rest

/-- Association-list insert standing in for `HashMap::insert`: the new
binding replaces any previous binding of the same key. -/
def mapInsert {α : Type} (k : B256) (v : α) (m : List (B256 × α)) :
    List (B256 × α) :=
  (k, v) :: m.filter (fun p => p.1 != k)

/-- The driver state held by `ApiService` (the `HttpJsonRpc` handle and the
tokio runtime live outside the state; the runtime only executes the async
bodies embedded directly below). Field names follow the Rust struct;
`next_payload_id_pairs` is the spec's `pending_payload_by_parent` and
`proposing_payload_pairs` the spec's `built_payloads_by_block`. -/
structure ApiService where
  latest_committed_id : Option B256
  next_payload_id_pairs : List (B256 × PayloadId)
  proposing_payload_pairs : List (B256 × (PayloadId × ExecutionPayloadWrapperV2))
deriving DecidableEq, Repr

/-- `ApiService::new`: empty maps, no committed head. -/
def ApiService.new : ApiService :=
  { latest_committed_id := none
    next_payload_id_pairs := []
    proposing_payload_pairs := [] }

/-- Tail of `ApiService::initialize_block` once the base block id is
resolved: plain forkchoice update, require a Valid status, then set
`latest_committed_id` to the resolved id. -/
def initializeResolved (api : Engine) (s : ApiService) (block_id : B256)
    (calls : List EngineCall) :
    Outcome Unit × ApiService × List EngineCall :=
  let calls := calls ++ [.forkchoiceUpdated ⟨block_id, block_id, block_id⟩ false]
  match forkchoice_updated api block_id with
  | .error e =>
    (.err (.ApiError ("forkchoice_updated: " ++ e)), s, calls)
  | .ok forkchoice_updated_result =>
    if forkchoice_updated_result.payload_status.status.is_valid then
      (.ok (), { s with latest_committed_id := some block_id }, calls)
    else
      (.err .BlockNotReady, s, calls)

/-- `ApiService::initialize_block`: resolve the base id (the given
`previous_id`, or else the engine's latest block), then
`initializeResolved`. The third component records the RPC calls issued. -/
def initialize_block (api : Engine) (s : ApiService)
    (previous_id : Option B256) :
    Outcome Unit × ApiService × List EngineCall :=
  match previous_id with
  | some block_id => initializeResolved api s block_id []
  | none =>
    match api.get_block_by_number "latest" with
    | .ok (some execution_block) =>
      initializeResolved api s execution_block.block_hash
        [.getBlockByNumber "latest"]
    | .ok none =>
      (.err (.UnknownBlock "get block return none"), s,
        [.getBlockByNumber "latest"])
    | .error e =>
      (.err (.ApiError ("get block by number error: " ++ e)), s,
        [.getBlockByNumber "latest"])

/-- `ApiService::summarize_block`: require a committed head, send a
forkchoice update with build attributes, require a Valid status and a
payload id, and record `next_payload_id_pairs[head] = payload_id`. -/
def summarize_block (api : Engine) (now : Nat) (s : ApiService) :
    Outcome Unit × ApiService :=
  match s.latest_committed_id with
  | none => (.err .NoChainHead, s)
  | some previous_id =>
    match forkchoice_updated_with_attributes api now previous_id with
    | .error e =>
      (.err (.ApiError ("forkchoice_updated_with_attributes: " ++ e)), s)
    | .ok fcu =>
      if fcu.payload_status.status.is_valid then
        match fcu.payload_id with
        | some payload_id =>
          (.ok (),
            { s with next_payload_id_pairs :=
                mapInsert previous_id payload_id s.next_payload_id_pairs })
        | none => (.err .BlockNotReady, s)
      else
        (.err .BlockNotReady, s)

/-- `ApiService::finalize_block`: require a committed head and a pending
payload id for it, fetch the payload, `panic!` when its declared parent
differs from the head, otherwise record it in `proposing_payload_pairs`
under the new block id and return it. -/
def finalize_block (api : Engine) (s : ApiService) :
    Outcome ExecutionPayloadWrapperV2 × ApiService :=
  match s.latest_committed_id with
  | none => (.err .NoChainHead, s)
  | some previous_id =>
    match mapGet previous_id s.next_payload_id_pairs with
    | none => (.err .BlockNotReady, s)
    | some payload_id =>
      match api.get_payload_v2 payload_id with
      | .error e => (.err (.ApiError ("get_payload_v2: " ++ e)), s)
      | .ok playload =>
        let block_id := playload.execution_payload.payload_inner.block_hash
        let last_block_id := playload.execution_payload.payload_inner.parent_hash
        if last_block_id ≠ previous_id then
          (.crash "TODO: check parent_hash consistent", s)
        else
          (.ok playload,
            { s with proposing_payload_pairs :=
                (mapInsert block_id (payload_id, playload)
                  s.proposing_payload_pairs) })

/-- `ApiService::commit_block`: require a built payload for `block_id`,
submit it via `new_payload`, and succeed exactly when the status is Valid
and carries a latest valid hash. -/
def commit_block (api : Engine) (s : ApiService) (block_id : B256) :
    Outcome Unit × ApiService :=
  match mapGet block_id s.proposing_payload_pairs with
  | none => (.err .BlockNotReady, s)
  | some (_payload_id, execution_payload) =>
    match new_payload api execution_payload with
    | .error e => (.err (.ApiError ("new_payload: " ++ e)), s)
    | .ok payload_status =>
      if payload_status.status.is_valid then
        match payload_status.latest_valid_hash with
        | some _ => (.ok (), s)
        | none => (.err .BlockNotReady, s)
      else
        (.err .BlockNotReady, s)

/-- `ApiService::cancel_block`: returns `Ok(())` and touches nothing. -/
def cancel_block (s : ApiService) : Outcome Unit × ApiService :=
  (.ok (), s)

/-- `ApiService::fail_block`: returns `Ok(())` and touches nothing. -/
def fail_block (s : ApiService) (_block_id : B256) : Outcome Unit × ApiService :=
  (.ok (), s)

/-- `ApiService::check_blocks`: returns `Ok(())` and touches nothing. -/
def check_blocks (s : ApiService) (_priority : List B256) :
    Outcome Unit × ApiService :=
  (.ok (), s)

/-- `ApiService::announce_block`: returns `Ok(())` and touches nothing. -/
def announce_block (s : ApiService) (_block_id : B256) :
    Outcome Unit × ApiService :=
  (.ok (), s)

/-- `ApiService::sync_block`: returns `Ok(())` and touches nothing. -/
def sync_block (s : ApiService) (_block_id : B256) :
    Outcome Unit × ApiService :=
  (.ok (), s)

/-! ## Block production scheduler (`ClTask::poll`, `task.rs`)

One iteration of the `first_layer` loop is one scheduling pass:
1. if the publishing ticker fired, push the timestamp onto the back of the
   `queued` `VecDeque`;
2. if no `insert_task` is in flight: when the backlog is empty, break;
   otherwise `pop_front` the oldest attempt and create the build task for it;
3. poll the (pre-existing or just-created) `insert_task`: on `Ready` clear
   it and continue the loop, on `Pending` put it back and break.

The build future's progress is external to the scheduler, so polling it is
modelled by an oracle verdict (`TaskPoll`). The in-flight task is identified
by the timestamp of the attempt that started it. -/

/-- Oracle verdict for polling the in-flight build future. -/
inductive TaskPoll where
  | ready
  | pending
deriving DecidableEq, Repr

/-- Scheduler state: the FIFO backlog of attempt timestamps (`queued`, front
first) and the single optional in-flight build (`insert_task`). -/
structure SchedState where
  queued : List Nat
  insert_task : Option Nat
deriving DecidableEq, Repr

/-- Outcome of one scheduling pass: the next state, the attempt whose build
was started this pass (if any), and whether the loop breaks. -/
structure SchedPass where
  state : SchedState
  started : Option Nat
  breaks : Bool
deriving DecidableEq, Repr

/-- The backlog after the ticker check of a pass: `push_back` the timestamp
if the ticker fired. -/
def enqueueTick (q : List Nat) : Option Nat → List Nat
  | some t => q ++ [t]
  | none => q

/-- One scheduling pass (one iteration of the `first_layer` loop of
`ClTask::poll`): enqueue the tick if the ticker fired, start at most one
build off the front of the backlog when idle, then poll the in-flight
build. -/
def schedStep (s : SchedState) (tick : Option Nat) (verdict : TaskPoll) :
    SchedPass :=
  let queued := enqueueTick s.queued tick
  match s.insert_task with
  | some j =>
    match verdict with
    | .ready => ⟨⟨queued, none⟩, none, false⟩
    | .pending => ⟨⟨queued, some j⟩, none, true⟩
  | none =>
    match queued with
    | [] => ⟨⟨[], none⟩, none, true⟩
    | timestamp :: rest =>
      match verdict with
      | .ready => ⟨⟨rest, none⟩, some timestamp, false⟩
      | .pending => ⟨⟨rest, some timestamp⟩, some timestamp, true⟩

/-- Run a sequence of scheduling passes, collecting the attempts whose
builds were started, in order. -/
def schedRun (s : SchedState) :
    List (Option Nat × TaskPoll) → SchedState × List Nat
  | [] => (s, [])
  | (tick, verdict) :: rest =>
    let pass := schedStep s tick verdict
    let (final, starts) := schedRun pass.state rest
    (final, pass.started.toList ++ starts)

/-! ## Helper definitions for the claim statements -/

/-- The base block id `initialize_block` resolves: the explicitly supplied
`previous_id`, or else the hash of the engine's latest block (none when the
lookup fails or reports no block). -/
def resolvedId (api : Engine) (previous_id : Option B256) : Option B256 :=
  match previous_id with
  | some block_id => some block_id
  | none =>
    match api.get_block_by_number "latest" with
    | .ok (some execution_block) => some execution_block.block_hash
    | _ => none

/-- A concrete payload: candidate block hash 2, declared parent hash 1. -/
def payloadOn1 : ExecutionPayloadWrapperV2 :=
  { execution_payload :=
      { payload_inner := { block_hash := 2, parent_hash := 1, block_number := 1 }
        withdrawals := [] }
    block_value := 0 }

/-- A cooperative stub engine: latest block is block 1, every forkchoice
update is Valid with payload id 7, `get_payload` returns `payloadOn1`
(which builds on block 1), `new_payload` is Valid with a latest valid
hash. -/
def stubEngine : Engine :=
  { get_block_by_number := fun _ => .ok (some ⟨1, 1, 0, 0, 0⟩)
    forkchoice_updated_v2 := fun _ _ => .ok ⟨⟨.valid, some 1⟩, some 7⟩
    get_payload_v2 := fun _ => .ok payloadOn1
    new_payload_v2 := fun _ => .ok ⟨.valid, some 2⟩ }

/-- A stub engine whose latest-block lookup reports no block. -/
def noBlockEngine : Engine :=
  { stubEngine with get_block_by_number := fun _ => .ok none }

/-- A stub engine that answers Syncing to every forkchoice update. -/
def syncingEngine : Engine :=
  { stubEngine with
      forkchoice_updated_v2 := fun _ _ => .ok ⟨⟨.syncing, none⟩, none⟩ }

/-- A stub engine whose `get_payload` returns a payload declaring parent 5,
inconsistent with head 1. -/
def mismatchEngine : Engine :=
  { stubEngine with
      get_payload_v2 := fun _ =>
        .ok { execution_payload :=
                { payload_inner :=
                    { block_hash := 2, parent_hash := 5, block_number := 1 }
                  withdrawals := [] }
              block_value := 0 } }

/-- Driver state with committed head 1 and pending payload id 7 for it, as
produced by a successful `initialize_block` + `summarize_block`. -/
def stateHead1Pending7 : ApiService :=
  { latest_committed_id := some 1
    next_payload_id_pairs := [(1, 7)]
    proposing_payload_pairs := [] }

/-- Driver state holding the built payload `payloadOn1` for candidate block
2, as produced by a successful `finalize_block`. -/
def stateBuilt2 : ApiService :=
  { latest_committed_id := some 1
    next_payload_id_pairs := [(1, 7)]
    proposing_payload_pairs := [(2, (7, payloadOn1))] }

/-! ## Characterization lemmas -/

/-- The engine calls `initialize_block` issues before the forkchoice
update: the head lookup exactly when `previous_id` is absent. -/
def initCalls : Option B256 → List EngineCall
  | some _ => []
  | none => [.getBlockByNumber "latest"]

theorem initialize_block_resolved (api : Engine) (s : ApiService)
    (previous_id : Option B256) (id : B256)
    (hres : resolvedId api previous_id = some id) :
    initialize_block api s previous_id =
      initializeResolved api s id (initCalls previous_id) := by
  cases previous_id with
  | some b =>
    simp only [resolvedId, Option.some.injEq] at hres
    subst hres
    rfl
  | none =>
    simp only [resolvedId] at hres
    cases hgb : api.get_block_by_number "latest" with
    | error e => rw [hgb] at hres; simp at hres
    | ok ob =>
      cases ob with
      | none => rw [hgb] at hres; simp at hres
      | some eb =>
        rw [hgb] at hres
        simp only [Option.some.injEq] at hres
        subst hres
        simp [initialize_block, hgb, initCalls]

theorem initializeResolved_valid (api : Engine) (s : ApiService) (id : B256)
    (calls : List EngineCall) (fcu : ForkchoiceUpdated)
    (hf : forkchoice_updated api id = .ok fcu)
    (hv : fcu.payload_status.status.is_valid = true) :
    initializeResolved api s id calls =
      (.ok (), { s with latest_committed_id := some id },
        calls ++ [.forkchoiceUpdated ⟨id, id, id⟩ false]) := by
  simp [initializeResolved, hf, hv]

theorem initializeResolved_not_valid (api : Engine) (s : ApiService)
    (id : B256) (calls : List EngineCall) (fcu : ForkchoiceUpdated)
    (hf : forkchoice_updated api id = .ok fcu)
    (hv : fcu.payload_status.status.is_valid = false) :
    initializeResolved api s id calls =
      (.err .BlockNotReady, s,
        calls ++ [.forkchoiceUpdated ⟨id, id, id⟩ false]) := by
  simp [initializeResolved, hf, hv]

theorem initializeResolved_transport (api : Engine) (s : ApiService)
    (id : B256) (calls : List EngineCall) (e : String)
    (hf : forkchoice_updated api id = .error e) :
    initializeResolved api s id calls =
      (.err (.ApiError ("forkchoice_updated: " ++ e)), s,
        calls ++ [.forkchoiceUpdated ⟨id, id, id⟩ false]) := by
  simp [initializeResolved, hf]

/-! ## Claims -/

/-- C1: the claim requires `finalize_block` to report a dedicated
`ConsistencyViolation` error on a parent-id mismatch instead of aborting
the process. The code instead hits `panic!("TODO: check parent_hash
consistent")`: at a state with head 1 and pending payload id 7, against an
engine returning a payload whose declared parent is 5 ≠ 1, `finalize_block`
aborts — it returns no error to the caller at all (indeed `ApiServiceError`
has no consistency-violation variant). -/
theorem C1_finalize_panics_on_parent_mismatch :
    (finalize_block mismatchEngine stateHead1Pending7).1 =
      .crash "TODO: check parent_hash consistent" := by
  rfl

/-- C2: a successful `initialize_block` sets `latest_committed_id` to the
resolved block id (which exists); with `previous_id` absent the first engine
call is the `get_block_by_number("latest")` head lookup; when that lookup
reports no block the call fails with `UnknownBlock`; and when the forkchoice
update for the resolved id reports a non-Valid status it fails with
`BlockNotReady`. -/
theorem C2_initialize_spec (api : Engine) (s : ApiService)
    (previous_id : Option B256) :
    ((initialize_block api s previous_id).1 = .ok () →
      (initialize_block api s previous_id).2.1.latest_committed_id =
          resolvedId api previous_id ∧
        (resolvedId api previous_id).isSome = true) ∧
    ((initialize_block api s none).2.2.head? =
      some (.getBlockByNumber "latest")) ∧
    (api.get_block_by_number "latest" = .ok none →
      (initialize_block api s none).1 =
        .err (.UnknownBlock "get block return none")) ∧
    (∀ id fcu, resolvedId api previous_id = some id →
      forkchoice_updated api id = .ok fcu →
      fcu.payload_status.status.is_valid = false →
      (initialize_block api s previous_id).1 = .err .BlockNotReady) := by
  refine ⟨?_, ?_, ?_, ?_⟩
  · intro hok
    cases hres : resolvedId api previous_id with
    | none =>
      exfalso
      cases previous_id with
      | some b => simp [resolvedId] at hres
      | none =>
        cases hgb : api.get_block_by_number "latest" with
        | error e => simp [initialize_block, hgb] at hok
        | ok ob =>
          cases ob with
          | none => simp [initialize_block, hgb] at hok
          | some eb => simp [resolvedId, hgb] at hres
    | some id =>
      rw [initialize_block_resolved api s previous_id id hres] at hok ⊢
      cases hf : forkchoice_updated api id with
      | error e =>
        rw [initializeResolved_transport api s id _ e hf] at hok
        simp at hok
      | ok fcu =>
        by_cases hv : fcu.payload_status.status.is_valid = true
        · rw [initializeResolved_valid api s id _ fcu hf hv]
          simp [hres]
        · rw [Bool.not_eq_true] at hv
          rw [initializeResolved_not_valid api s id _ fcu hf hv] at hok
          simp at hok
  · cases hgb : api.get_block_by_number "latest" with
    | error e => simp [initialize_block, hgb]
    | ok ob =>
      cases ob with
      | none => simp [initialize_block, hgb]
      | some eb =>
        cases hf : forkchoice_updated api eb.block_hash with
        | error e => simp [initialize_block, hgb, initializeResolved, hf]
        | ok fcu =>
          by_cases hv : fcu.payload_status.status.is_valid = true <;>
            simp [initialize_block, hgb, initializeResolved, hf, hv]
  · intro hnone
    simp [initialize_block, hnone]
  · intro id fcu hres hf hv
    rw [initialize_block_resolved api s previous_id id hres,
      initializeResolved_not_valid api s id _ fcu hf hv]

/-- C2 witness: against the cooperative stub engine a parameterless
`initialize_block` succeeds with `latest_committed_id` = the resolved head;
against the no-block engine it fails `UnknownBlock`; against the syncing
engine it fails `BlockNotReady`. -/
theorem C2_initialize_spec_witness :
    ((initialize_block stubEngine ApiService.new none).2.1.latest_committed_id =
        resolvedId stubEngine none ∧
      (resolvedId stubEngine none).isSome = true) ∧
    (initialize_block noBlockEngine ApiService.new none).1 =
      .err (.UnknownBlock "get block return none") ∧
    (initialize_block syncingEngine ApiService.new none).1 =
      .err .BlockNotReady :=
  ⟨(C2_initialize_spec stubEngine ApiService.new none).1 rfl,
    (C2_initialize_spec noBlockEngine ApiService.new none).2.2.1 rfl,
    (C2_initialize_spec syncingEngine ApiService.new none).2.2.2 1
      ⟨⟨.syncing, none⟩, none⟩ rfl rfl rfl⟩

/-- C3: when the forkchoice update during `initialize_block` reports a
non-Valid status (e.g. Syncing), the call returns `BlockNotReady` and the
driver state — in particular `latest_committed_id` — is unchanged. -/
theorem C3_initialize_not_valid_unchanged (api : Engine) (s : ApiService)
    (previous_id : Option B256) (id : B256) (fcu : ForkchoiceUpdated)
    (hres : resolvedId api previous_id = some id)
    (hf : forkchoice_updated api id = .ok fcu)
    (hv : fcu.payload_status.status.is_valid = false) :
    (initialize_block api s previous_id).1 = .err .BlockNotReady ∧
      (initialize_block api s previous_id).2.1 = s ∧
      (initialize_block api s previous_id).2.1.latest_committed_id =
        s.latest_committed_id := by
  rw [initialize_block_resolved api s previous_id id hres,
    initializeResolved_not_valid api s id _ fcu hf hv]
  exact ⟨rfl, rfl, rfl⟩

/-- C3 witness: the syncing engine at the freshly initialized state. -/
theorem C3_initialize_not_valid_unchanged_witness :
    (initialize_block syncingEngine ApiService.new none).1 =
        .err .BlockNotReady ∧
      (initialize_block syncingEngine ApiService.new none).2.1 =
        ApiService.new ∧
      (initialize_block syncingEngine ApiService.new none).2.1.latest_committed_id =
        ApiService.new.latest_committed_id :=
  C3_initialize_not_valid_unchanged syncingEngine ApiService.new none 1
    ⟨⟨.syncing, none⟩, none⟩ rfl rfl rfl

/-- Driver state with committed head 1 and a stale pending payload id 99
for it, to exhibit the silent overwrite by a second `summarize_block`. -/
def stateHead1Stale : ApiService :=
  { latest_committed_id := some 1
    next_payload_id_pairs := [(1, 99)]
    proposing_payload_pairs := [] }

/-- C4: `summarize_block` fails `NoChainHead` when no head is committed;
when the forkchoice update with attributes reports Valid together with a
payload id, it succeeds and records the pending payload id for the head —
overwriting any existing entry for that parent, since the recorded map is
exactly a `HashMap::insert`; when the status is not Valid or no payload id
is returned, it fails `BlockNotReady` with the state unchanged. -/
theorem C4_summarize_spec (api : Engine) (now : Nat) (s : ApiService) :
    (s.latest_committed_id = none →
      summarize_block api now s = (.err .NoChainHead, s)) ∧
    (∀ p fcu pid, s.latest_committed_id = some p →
      forkchoice_updated_with_attributes api now p = .ok fcu →
      fcu.payload_status.status.is_valid = true →
      fcu.payload_id = some pid →
      (summarize_block api now s).1 = .ok () ∧
        (summarize_block api now s).2.next_payload_id_pairs =
          mapInsert p pid s.next_payload_id_pairs ∧
        mapGet p (summarize_block api now s).2.next_payload_id_pairs =
          some pid) ∧
    (∀ p fcu, s.latest_committed_id = some p →
      forkchoice_updated_with_attributes api now p = .ok fcu →
      (fcu.payload_status.status.is_valid = false ∨ fcu.payload_id = none) →
      summarize_block api now s = (.err .BlockNotReady, s)) := by
  refine ⟨?_, ?_, ?_⟩
  · intro h
    simp [summarize_block, h]
  · intro p fcu pid hp hf hv hpid
    simp [summarize_block, hp, hf, hv, hpid, mapGet, mapInsert]
  · intro p fcu hp hf hcase
    rcases hcase with hv | hpid
    · simp [summarize_block, hp, hf, hv]
    · cases hv : fcu.payload_status.status.is_valid with
      | false => simp [summarize_block, hp, hf, hv]
      | true => simp [summarize_block, hp, hf, hv, hpid]

/-- C4 witness: fresh state fails `NoChainHead`; against the stub engine
from head 1 with a stale pending entry `(1, 99)` the call succeeds and the
pending id for head 1 now reads 7, the stale 99 silently overwritten; the
syncing engine yields `BlockNotReady` with the state unchanged. -/
theorem C4_summarize_spec_witness :
    summarize_block stubEngine 100 ApiService.new =
        (.err .NoChainHead, ApiService.new) ∧
      ((summarize_block stubEngine 100 stateHead1Stale).1 = .ok () ∧
        (summarize_block stubEngine 100 stateHead1Stale).2.next_payload_id_pairs =
          mapInsert 1 7 stateHead1Stale.next_payload_id_pairs ∧
        mapGet 1 (summarize_block stubEngine 100 stateHead1Stale).2.next_payload_id_pairs =
          some 7) ∧
      summarize_block syncingEngine 100 stateHead1Stale =
        (.err .BlockNotReady, stateHead1Stale) :=
  ⟨(C4_summarize_spec stubEngine 100 ApiService.new).1 rfl,
    (C4_summarize_spec stubEngine 100 stateHead1Stale).2.1 1
      ⟨⟨.valid, some 1⟩, some 7⟩ 7 rfl rfl rfl rfl,
    (C4_summarize_spec syncingEngine 100 stateHead1Stale).2.2 1
      ⟨⟨.syncing, none⟩, none⟩ rfl rfl (Or.inl rfl)⟩

/-- A stub engine whose `new_payload` answers Invalid with no latest valid
hash. -/
def invalidPayloadEngine : Engine :=
  { stubEngine with new_payload_v2 := fun _ => .ok ⟨.invalid, none⟩ }

/-- C5: `commit_block` fails `BlockNotReady` when `block_id` has no entry in
the built-payloads map (`proposing_payload_pairs`); when an entry exists and
the engine answers `new_payload`, the call succeeds exactly when the status
is Valid and carries a latest valid hash, and fails `BlockNotReady` in every
other engine-response case. -/
theorem C5_commit_spec (api : Engine) (s : ApiService) (block_id : B256) :
    (mapGet block_id s.proposing_payload_pairs = none →
      commit_block api s block_id = (.err .BlockNotReady, s)) ∧
    (∀ pid ep ps, mapGet block_id s.proposing_payload_pairs = some (pid, ep) →
      new_payload api ep = .ok ps →
      (((commit_block api s block_id).1 = .ok ()) ↔
        (ps.status.is_valid = true ∧ ps.latest_valid_hash.isSome = true)) ∧
      (¬(ps.status.is_valid = true ∧ ps.latest_valid_hash.isSome = true) →
        (commit_block api s block_id).1 = .err .BlockNotReady)) := by
  refine ⟨?_, ?_⟩
  · intro h
    simp [commit_block, h]
  · intro pid ep ps hget hnp
    by_cases hv : ps.status.is_valid = true
    · cases hlv : ps.latest_valid_hash with
      | none =>
        refine ⟨by simp [commit_block, hget, hnp, hv, hlv], fun _ => ?_⟩
        simp [commit_block, hget, hnp, hv, hlv]
      | some lv =>
        refine ⟨by simp [commit_block, hget, hnp, hv, hlv], fun hcontra => ?_⟩
        exact absurd ⟨hv, by simp [hlv]⟩ hcontra
    · refine ⟨by simp [commit_block, hget, hnp, hv], fun _ => ?_⟩
      simp [commit_block, hget, hnp, hv]

/-- C5 witness: block 5 was never produced by `finalize_block`, so commit
fails `BlockNotReady`; committing the built block 2 succeeds against the
stub engine (Valid with a latest valid hash) and fails `BlockNotReady`
against the engine answering Invalid. -/
theorem C5_commit_spec_witness :
    commit_block stubEngine stateBuilt2 5 = (.err .BlockNotReady, stateBuilt2) ∧
      (((commit_block stubEngine stateBuilt2 2).1 = .ok ()) ↔
        ((PayloadStatus.mk .valid (some 2)).status.is_valid = true ∧
          (PayloadStatus.mk .valid (some 2)).latest_valid_hash.isSome = true)) ∧
      (commit_block invalidPayloadEngine stateBuilt2 2).1 =
        .err .BlockNotReady :=
  ⟨(C5_commit_spec stubEngine stateBuilt2 5).1 rfl,
    ((C5_commit_spec stubEngine stateBuilt2 2).2 7 payloadOn1
      ⟨.valid, some 2⟩ rfl rfl).1,
    ((C5_commit_spec invalidPayloadEngine stateBuilt2 2).2 7 payloadOn1
      ⟨.invalid, none⟩ rfl rfl).2 (by decide)⟩

/-- C7: driving `initialize(P) → summarize() → finalize()` against an
engine that always reports Valid (and, as any conforming mock, returns a
payload id from the build request and a payload building on the requested
head `P`): every phase succeeds and the payload returned by `finalize`
declares parent id `P`. -/
theorem C7_round_trip (api : Engine) (now : Nat) (s : ApiService)
    (P pid : B256) (payload : ExecutionPayloadWrapperV2)
    (fcu1 fcu2 : ForkchoiceUpdated)
    (h1 : forkchoice_updated api P = .ok fcu1)
    (h1v : fcu1.payload_status.status.is_valid = true)
    (h2 : forkchoice_updated_with_attributes api now P = .ok fcu2)
    (h2v : fcu2.payload_status.status.is_valid = true)
    (h2p : fcu2.payload_id = some pid)
    (h3 : api.get_payload_v2 pid = .ok payload)
    (h3p : payload.execution_payload.payload_inner.parent_hash = P) :
    (initialize_block api s (some P)).1 = .ok () ∧
      (summarize_block api now (initialize_block api s (some P)).2.1).1 =
        .ok () ∧
      (finalize_block api
          (summarize_block api now (initialize_block api s (some P)).2.1).2).1 =
        .ok payload ∧
      payload.execution_payload.payload_inner.parent_hash = P := by
  have h0 : initialize_block api s (some P) =
      (.ok (), { s with latest_committed_id := some P },
        [.forkchoiceUpdated ⟨P, P, P⟩ false]) := by
    rw [initialize_block_resolved api s (some P) P rfl,
      initializeResolved_valid api s P _ fcu1 h1 h1v]
    rfl
  have h1' : summarize_block api now { s with latest_committed_id := some P } =
      (.ok (),
        { latest_committed_id := some P
          next_payload_id_pairs := mapInsert P pid s.next_payload_id_pairs
          proposing_payload_pairs := s.proposing_payload_pairs }) := by
    simp [summarize_block, h2, h2v, h2p]
  have h2' : (finalize_block api
      { latest_committed_id := some P
        next_payload_id_pairs := mapInsert P pid s.next_payload_id_pairs
        proposing_payload_pairs := s.proposing_payload_pairs }).1 =
      .ok payload := by
    simp [finalize_block, mapGet, mapInsert, h3, h3p]
  simp [h0, h1', h2', h3p]

/-- C7 witness: the cooperative stub engine from a fresh driver state with
`P = 1`. -/
theorem C7_round_trip_witness :
    (initialize_block stubEngine ApiService.new (some 1)).1 = .ok () ∧
      (summarize_block stubEngine 100
          (initialize_block stubEngine ApiService.new (some 1)).2.1).1 =
        .ok () ∧
      (finalize_block stubEngine
          (summarize_block stubEngine 100
            (initialize_block stubEngine ApiService.new (some 1)).2.1).2).1 =
        .ok payloadOn1 ∧
      payloadOn1.execution_payload.payload_inner.parent_hash = 1 :=
  C7_round_trip stubEngine 100 ApiService.new 1 7 payloadOn1
    ⟨⟨.valid, some 1⟩, some 7⟩ ⟨⟨.valid, some 1⟩, some 7⟩
    rfl rfl rfl rfl rfl rfl rfl

/-- C8: `commit_block` never modifies the driver state — in particular
`latest_committed_id` is unchanged whether the call succeeds or fails; the
caller must separately re-initialize to move the head forward. -/
theorem C8_commit_frame (api : Engine) (s : ApiService) (block_id : B256) :
    (commit_block api s block_id).2 = s ∧
      (commit_block api s block_id).2.latest_committed_id =
        s.latest_committed_id := by
  have h2 : (commit_block api s block_id).2 = s := by
    simp only [commit_block]
    repeat' split
    all_goals rfl
  exact ⟨h2, by rw [h2]⟩

/-- C9: the claim requires `fail_block` and `cancel_block` to evict the
affected entry of the built-payloads map. The code's hooks are no-ops that
return `Ok(())` and release nothing: from a state holding the built payload
for block 2, both hooks report success and the entry for block 2 is still
present afterwards. -/
theorem C9_hooks_do_not_evict :
    (fail_block stateBuilt2 2).1 = .ok () ∧
      mapGet 2 (fail_block stateBuilt2 2).2.proposing_payload_pairs =
        some (7, payloadOn1) ∧
      (cancel_block stateBuilt2).1 = .ok () ∧
      mapGet 2 (cancel_block stateBuilt2).2.proposing_payload_pairs =
        some (7, payloadOn1) :=
  ⟨rfl, rfl, rfl, rfl⟩

/-- C10: with an explicitly supplied `previous_id`, `initialize_block`
issues exactly one engine call — the plain forkchoice update — so in
particular no `get_block_by_number` head lookup and no local existence
check for the id; and whenever the forkchoice update reports Valid it
succeeds with `latest_committed_id` set to exactly that id. -/
theorem C10_initialize_explicit (api : Engine) (s : ApiService) (p : B256) :
    (initialize_block api s (some p)).2.2 =
        [.forkchoiceUpdated ⟨p, p, p⟩ false] ∧
      (∀ fcu, forkchoice_updated api p = .ok fcu →
        fcu.payload_status.status.is_valid = true →
        (initialize_block api s (some p)).1 = .ok () ∧
        (initialize_block api s (some p)).2.1.latest_committed_id = some p) := by
  constructor
  · cases hf : forkchoice_updated api p with
    | error e => simp [initialize_block, initializeResolved, hf]
    | ok fcu =>
      by_cases hv : fcu.payload_status.status.is_valid = true <;>
        simp [initialize_block, initializeResolved, hf, hv]
  · intro fcu hf hv
    rw [initialize_block_resolved api s (some p) p rfl,
      initializeResolved_valid api s p _ fcu hf hv]
    exact ⟨rfl, rfl⟩

/-- C10 witness: the stub engine with explicit previous id 1. -/
theorem C10_initialize_explicit_witness :
    (initialize_block stubEngine ApiService.new (some 1)).1 = .ok () ∧
      (initialize_block stubEngine ApiService.new (some 1)).2.1.latest_committed_id =
        some 1 :=
  (C10_initialize_explicit stubEngine ApiService.new 1).2
    ⟨⟨.valid, some 1⟩, some 7⟩ rfl rfl

/-- C6: the scheduler keeps at most one build in flight and serves the
backlog first-in first-out. A pass with a build in flight starts no new
build; an idle pass with a non-empty backlog pops exactly its oldest
attempt and starts exactly that build (which stays in flight while its
poll is Pending); and the concrete run with backlog [1, 2, 3] starts the
builds in exactly that order, each only after the previous completed. -/
theorem C6_scheduler_fifo :
    (∀ s tick verdict j, s.insert_task = some j →
        (schedStep s tick verdict).started = none) ∧
      (∀ s tick verdict t rest, s.insert_task = none →
        enqueueTick s.queued tick = t :: rest →
        (schedStep s tick verdict).started = some t ∧
        (schedStep s tick verdict).state.queued = rest ∧
        (schedStep s tick verdict).state.insert_task =
          (match verdict with | .ready => none | .pending => some t)) ∧
      (schedRun ⟨[1, 2, 3], none⟩
          [(none, .pending), (none, .pending), (none, .ready),
            (none, .pending), (none, .ready), (none, .pending)]).2 =
        [1, 2, 3] := by
  refine ⟨?_, ?_, ?_⟩
  · intro s tick verdict j hj
    cases verdict <;> simp [schedStep, hj]
  · intro s tick verdict t rest hidle henq
    cases verdict <;> simp [schedStep, hidle, henq]
  · rfl

/-- C6 witness: a pass with build 9 in flight starts nothing; an idle pass
with backlog [4, 6] starts exactly build 4. -/
theorem C6_scheduler_fifo_witness :
    (schedStep ⟨[5], some 9⟩ none .pending).started = none ∧
      (schedStep ⟨[4, 6], none⟩ none .pending).started = some 4 :=
  ⟨C6_scheduler_fifo.1 ⟨[5], some 9⟩ none .pending 9 rfl,
    (C6_scheduler_fifo.2.1 ⟨[4, 6], none⟩ none .pending 4 [6] rfl rfl).1⟩

end RethCl
